import Mathlib

/-!
Shallow embedding of the FlowChat WhatsApp message gateway
(backend/app/services/messages.py, backend/app/services/twilio_service.py,
backend/app/models/message.py, backend/app/models/contact.py,
backend/app/routes/whatsapp.py, backend/app/routes/webhooks.py),
together with theorems settling the frozen claims about it.

Conventions of the embedding:
* MongoDB state is an explicit `DB` value threaded through every operation.
* `ObjectId()` generation is modelled by a fresh-counter `DB.nextId`;
  `str(objectid)` is modelled by `toString`.
* `datetime.utcnow()` timestamps are an explicit `now : Nat` argument.
* Python values that can be a string, a list of strings or `None`
  (webhook dictionary entries) are modelled by `PyVal`; webhook
  dictionaries are association lists `Dict`.
* Python exceptions are explicit: fallible operations return `Except`.
* Metadata dictionaries carry a fixed set of keys (exactly the keys the
  gateway code reads or writes); a key that is absent is `none`.
-/

namespace FlowChat

/-- A Python value occurring in a webhook payload dictionary:
a string, a list of strings, or `None`. -/
inductive PyVal where
  | s (v : String)
  | ls (v : List String)
  | null
deriving DecidableEq, Repr

/-- A flat Python dictionary with string keys, as delivered by a
Twilio-style form-encoded webhook or built by the service layer. -/
def Dict : Type := List (String × PyVal)

instance : DecidableEq Dict := by
  unfold Dict
  infer_instance

/-- `d.get(k, default)` on a Python dictionary. -/
def dictGet (d : Dict) (k : String) (default : PyVal) : PyVal :=
  match d.find? (fun kv => kv.1 == k) with
  | some kv => kv.2
  | none => default

/-- `k in d` on a Python dictionary. -/
def dictHas (d : Dict) (k : String) : Bool :=
  (d.find? (fun kv => kv.1 == k)).isSome

/-- Python truthiness of a `PyVal`: `None`, `''` and `[]` are falsy. -/
def PyVal.truthy : PyVal → Bool
  | .s v => v ≠ ""
  | .ls v => v ≠ []
  | .null => false

/-- Read a `PyVal` as a string (the gateway only does this on values it
has already found truthy, which are strings in every caller). -/
def PyVal.asStr : PyVal → String
  | .s v => v
  | .ls _ => ""
  | .null => ""

/-- Lift an optional string into a `PyVal` (`None` for `none`). -/
def optPy : Option String → PyVal
  | some v => .s v
  | none => .null

/-- One entry of the `status_history` list kept inside message metadata:
`{'status': ..., 'timestamp': ...}` as appended by
`WhatsAppService.handle_status_update`. -/
structure StatusEntry where
  status : String
  timestamp : Nat
deriving DecidableEq, Repr

/-- The message metadata dictionary.  Fields are exactly the keys the
gateway code reads or writes; `extra` stands for any further
caller-supplied pairs, which the gateway never touches. -/
structure Meta where
  media_url : Option PyVal := none
  provider_message_id : Option String := none
  provider_status : Option String := none
  error : Option String := none
  status_history : Option (List StatusEntry) := none
  provider : Option String := none
  raw_webhook : Option Dict := none
  received_at : Option Nat := none
  whatsapp_message_id : Option String := none
  timestamp : Option String := none
  extra : List (String × String) := []
deriving DecidableEq

/-- `app/models/message.py`: the `Message` document.
`status` and `direction` default as in `Message.__init__`
(`status='pending'`, `direction='outbound'`). -/
structure Message where
  _id : Nat
  content : String
  from_user : Option String := none
  to_contact : Option String := none
  message_type : String := "text"
  status : String := "pending"
  direction : String := "outbound"
  metadata : Meta := {}
  created_at : Nat := 0
  updated_at : Nat := 0
deriving DecidableEq

/-- `app/models/contact.py`: the `Contact` document. -/
structure Contact where
  _id : Nat
  phone : String
  name : Option String := none
  email : Option String := none
  tags : List String := []
  metadata : List (String × String) := []
  created_at : Nat := 0
  updated_at : Nat := 0
deriving DecidableEq

/-- The MongoDB state visible to the gateway: the `contacts` and
`messages` collections, plus the fresh-`ObjectId` counter. -/
structure DB where
  contacts : List Contact := []
  messages : List Message := []
  nextId : Nat := 0
deriving DecidableEq

/-- Well-formedness of a database value: every stored id was produced by
the fresh-id counter, so a newly generated id collides with no document. -/
def DB.WF (db : DB) : Prop :=
  (∀ c ∈ db.contacts, c._id < db.nextId) ∧ (∀ m ∈ db.messages, m._id < db.nextId)

instance (db : DB) : Decidable db.WF := by
  unfold DB.WF
  infer_instance

/-! ### app/models/contact.py -/

/-- `Contact.find_by_phone`: `find_one({'phone': phone})`. -/
def Contact.find_by_phone (db : DB) (phone : String) : Option Contact :=
  db.contacts.find? (fun c => c.phone == phone)

/-- `Contact.find_by_id`: `find_one({'_id': ObjectId(contact_id)})`. -/
def Contact.find_by_id (db : DB) (cid : Nat) : Option Contact :=
  db.contacts.find? (fun c => c._id == cid)

/-- `Contact.save`: `update_one({'_id': ...}, {'$set': ...}, upsert=True)`,
after setting `updated_at`. -/
def DB.saveContact (db : DB) (c : Contact) (now : Nat) : DB :=
  let c' := { c with updated_at := now }
  if db.contacts.any (fun x => x._id == c._id) then
    { db with contacts := db.contacts.map (fun x => if x._id == c._id then c' else x) }
  else
    { db with contacts := db.contacts ++ [c'] }

/-- The argument dictionary of `Contact.create` (only the keys that
`create` reads; the `'source'` key passed by
`WhatsAppService._ensure_contact_exists` is ignored by `create`). -/
structure ContactData where
  phone : String := ""
  name : Option String := none
  email : Option String := none
  tags : List String := []
  metadata : List (String × String) := []
deriving DecidableEq

/-- `Contact.create`: raises `ValueError` when the phone is falsy,
otherwise builds a `Contact` with a fresh id and saves it. -/
def Contact.create (db : DB) (now : Nat) (data : ContactData) :
    Except String (DB × Contact) :=
  if data.phone = "" then
    .error "Phone number is required"
  else
    let c : Contact :=
      { _id := db.nextId, phone := data.phone, name := data.name,
        email := data.email, tags := data.tags, metadata := data.metadata,
        created_at := now, updated_at := now }
    .ok (DB.saveContact { db with nextId := db.nextId + 1 } c now, c)

/-! ### app/models/message.py -/

/-- `Message.find_by_id`: `find_one({'_id': message_id})`. -/
def Message.find_by_id (db : DB) (mid : Nat) : Option Message :=
  db.messages.find? (fun m => m._id == mid)

/-- `Message.save`: `update_one({'_id': ...}, {'$set': ...}, upsert=True)`,
after setting `updated_at`. -/
def DB.saveMessage (db : DB) (m : Message) (now : Nat) : DB :=
  let m' := { m with updated_at := now }
  if db.messages.any (fun x => x._id == m._id) then
    { db with messages := db.messages.map (fun x => if x._id == m._id then m' else x) }
  else
    { db with messages := db.messages ++ [m'] }

/-- The argument dictionary of `Message.create` (the keys its callers in
the message service pass; the `'user_id'`/`'contact_id'` aliases are never
used by those callers). -/
structure MessageData where
  content : String := ""
  from_user : Option String := none
  to_contact : Option String := none
  message_type : String := "text"
  status : String := "pending"
  direction : String := "outbound"
  metadata : Meta := {}
deriving DecidableEq

/-- `Message.create`: raises `ValueError("Message content is required")`
when the content is falsy, otherwise builds a `Message` with a fresh id
and saves it. -/
def Message.create (db : DB) (now : Nat) (data : MessageData) :
    Except String (DB × Message) :=
  if data.content = "" then
    .error "Message content is required"
  else
    let m : Message :=
      { _id := db.nextId, content := data.content, from_user := data.from_user,
        to_contact := data.to_contact, message_type := data.message_type,
        status := data.status, direction := data.direction,
        metadata := data.metadata, created_at := now, updated_at := now }
    .ok (DB.saveMessage { db with nextId := db.nextId + 1 } m now, m)

/-- The messages-collection effect of `Message.update_status`:
`update_one({'_id': ...}, {'$set': {'status': ..., 'updated_at': ...}})`. -/
def setStatusList (msgs : List Message) (mid : Nat) (s : String) (now : Nat) :
    List Message :=
  msgs.map (fun x => if x._id == mid then { x with status := s, updated_at := now } else x)

/-- `Message.update_status`: sets the status and `updated_at` of the
message with the given id, unconditionally. -/
def Message.update_status (db : DB) (mid : Nat) (s : String) (now : Nat) : DB :=
  { db with messages := setStatusList db.messages mid s now }

/-- The update dictionary passed to `Message.update` by its (sole)
caller `WhatsAppService.handle_status_update`: a `'status'` and/or a
`'metadata'` key. -/
structure UpdateData where
  status : Option String := none
  metadata : Option Meta := none
deriving DecidableEq

/-- `Message.update`: finds the message by id (returning `None` when it
is absent), overwrites the attributes present in `data`, refreshes
`updated_at` and saves. -/
def Message.update (db : DB) (mid : Nat) (data : UpdateData) (now : Nat) :
    Option (DB × Message) :=
  match Message.find_by_id db mid with
  | none => none
  | some m =>
    let m := match data.status with
      | some s => { m with status := s }
      | none => m
    let m := match data.metadata with
      | some md => { m with metadata := md }
      | none => m
    let m := { m with updated_at := now }
    some (DB.saveMessage db m now, m)

/-- Insert a message into a list sorted by `created_at` descending. -/
def insertByCreatedDesc (m : Message) : List Message → List Message
  | [] => [m]
  | x :: t =>
    if x.created_at ≤ m.created_at then m :: x :: t
    else x :: insertByCreatedDesc m t

/-- Sort messages newest first (`sort('created_at', -1)`). -/
def sortByCreatedDesc : List Message → List Message
  | [] => []
  | m :: t => insertByCreatedDesc m (sortByCreatedDesc t)

/-- `Message.find_by_contact`: messages whose `to_contact` or `from_user`
equals the contact id, newest first, paginated by `skip`/`limit`. -/
def Message.find_by_contact (db : DB) (contact_id : String) (limit skip : Nat) :
    List Message :=
  ((sortByCreatedDesc (db.messages.filter
      (fun m => m.to_contact == some contact_id || m.from_user == some contact_id))).drop
    skip).take limit

/-- Modelled from the spec: `Message.find_by_provider_id` is called by
`WhatsAppService.handle_status_update` but is defined nowhere in
`app/models/message.py` (only its caller exists under `src/`).  Spec
section 4.3 specifies `findByProviderMessageId(providerId) -> Message |
absent`, matching a Message by the `provider_message_id` key of its
metadata, which is "the sole join key used to match an inbound status
callback to a previously sent Message".  A `None` argument (which the
whatsapp route can produce) matches no stored message. -/
def Message.find_by_provider_id (db : DB) (pid : Option String) : Option Message :=
  match pid with
  | none => none
  | some s => db.messages.find? (fun m => m.metadata.provider_message_id == some s)

/-! ### app/services/messages.py : phone normalizer and contact resolver -/

/-- Python `phone.startswith('+')`, on the character list. -/
def startsWithPlusL : List Char → Bool
  | [] => false
  | c :: _ => c == '+'

/-- Python `phone.startswith('+')`. -/
def startsWithPlus (s : String) : Bool :=
  startsWithPlusL s.data

/-- `WhatsAppService._format_phone_number`: strips non-digits, returns the
input unchanged when it already starts with `+`, otherwise prefixes the
digit string with `+`. -/
def format_phone_number (phone : String) : String :=
  let digits_only : String := ⟨phone.data.filter Char.isDigit⟩
  if startsWithPlus phone then phone
  else if ¬ startsWithPlus digits_only then "+" ++ digits_only
  else phone

/-- `WhatsAppService._ensure_contact_exists`: find-by-phone, else create a
contact with the generated placeholder display name; a `ValueError` from
`Contact.create` is caught and turned into `None`. -/
def ensure_contact_exists (db : DB) (now : Nat) (phone : String) :
    DB × Option Contact :=
  match Contact.find_by_phone db phone with
  | some c => (db, some c)
  | none =>
    let contact_data : ContactData :=
      { phone := phone, name := some ("WhatsApp User (" ++ phone ++ ")"),
        metadata := [("created_from", "whatsapp_service"), ("created_at", toString now)] }
    match Contact.create db now contact_data with
    | .ok (db', c) => (db', some c)
    | .error _ => (db, none)

/-! ### app/services/twilio_service.py -/

/-- The outcome of the one external call `self.client.messages.create(...)`
inside `TwilioService.send_message`: the provider answers with a SID and a
status string, rejects with a `TwilioRestException`, or the transport
throws any other exception (network fault, timeout). -/
inductive TwilioOutcome where
  | ok (sid : String) (status : String)
  | restError (code : Nat) (msg : String)
  | exc (msg : String)
deriving DecidableEq

/-- The result dictionary returned by `TwilioService.send_message` /
`_send_via_direct_whatsapp` (the keys `send_message` in the facade
reads). -/
structure ProviderResult where
  success : Bool
  message_sid : Option String := none
  status : Option String := none
  error : Option String := none
  error_code : Option Nat := none
deriving DecidableEq

/-- `TwilioService.send_message`: one synchronous provider call inside a
`try`.  Success returns `{'success': True, 'message_sid': ..., 'status':
...}`; a `TwilioRestException` and any other exception are both caught and
returned as `{'success': False, 'error': str(e), ...}` — the method never
raises. -/
def TwilioService.send_message (outcome : TwilioOutcome) : ProviderResult :=
  match outcome with
  | .ok sid st => { success := true, message_sid := some sid, status := some st }
  | .restError code msg => { success := false, error := some msg, error_code := some code }
  | .exc msg => { success := false, error := some msg }

/-- `WhatsAppService._send_via_twilio`: calls `twilio.send_message` inside
a `try`; since the callee already catches every exception, the `except`
branch returning `{'success': False, 'error': str(e)}` is never taken. -/
def send_via_twilio (outcome : TwilioOutcome) : ProviderResult :=
  TwilioService.send_message outcome

/-- `WhatsAppService._send_via_direct_whatsapp`: a stub that always
reports failure. -/
def send_via_direct_whatsapp : ProviderResult :=
  { success := false, error := some "Direct WhatsApp API not implemented" }

/-! ### app/services/messages.py : the facade send path -/

/-- The provider-selection configuration `send_message` reads from the
Flask app config. -/
structure AppConfig where
  TWILIO_ENABLED : Bool := false
  TWILIO_ACCOUNT_SID : Option String := none
  DIRECT_WHATSAPP_ENABLED : Bool := false
deriving DecidableEq

/-- Python truthiness of the configured account SID. -/
def AppConfig.sidTruthy (cfg : AppConfig) : Bool :=
  match cfg.TWILIO_ACCOUNT_SID with
  | some s => s ≠ ""
  | none => false

/-- What `WhatsAppService.send_message` returns: either the `Message`
object, or an error dictionary `{'success': False, 'error': ...}` that
carries a `'message_id'` key on the post-dispatch failure path. -/
inductive SendResult where
  | msg (m : Message)
  | err (error : String) (message_id : Option Nat)
deriving DecidableEq

/-- The `if result.get('success'):` block of `send_message` (lines
124-144): on success with a truthy provider id, record the provider id and
status in metadata and move the message to `sent`; on failure, move it to
`failed` and record the error detail in metadata. -/
def processSendResult (db : DB) (now : Nat) (message : Message)
    (result : ProviderResult) : DB × SendResult :=
  if result.success then
    let provider_id : Option String :=
      match result.message_sid with
      | some s => if s ≠ "" then some s else none
      | none => none
    match provider_id with
    | some pid =>
      let m := { message with
        metadata := { message.metadata with
          provider_message_id := some pid,
          provider_status := some (result.status.getD "sent") },
        status := "sent" }
      (DB.saveMessage db m now, .msg m)
    | none => (db, .msg message)
  else
    let error_msg := result.error.getD "Unknown error"
    let m := { message with
      status := "failed",
      metadata := { message.metadata with error := some error_msg } }
    (DB.saveMessage db m now, .err error_msg (some message._id))

/-- `WhatsAppService.send_message`: validates input, normalizes the phone,
resolves the contact, creates the pending `Message`, dispatches via the
configured provider and updates the message from the result.  The whole
dispatch region sits in a `try` whose handler returns an error dictionary,
so the returned value is always `.ok`: no exception escapes the facade. -/
def send_message (cfg : AppConfig) (outcome : TwilioOutcome) (db : DB) (now : Nat)
    (content : String) (to_contact : String) (from_user : Option String)
    (message_type : String) (media_url : PyVal) (metadata : Meta) :
    Except String (DB × SendResult) :=
  if content = "" ∧ ¬ media_url.truthy then
    .ok (db, .err "Message content or media is required" none)
  else
    let to_phone := format_phone_number to_contact
    if to_phone = "" then
      .ok (db, .err ("Invalid phone number: " ++ to_contact) none)
    else
      match ensure_contact_exists db now to_phone with
      | (db1, none) =>
        .ok (db1, .err ("Failed to create contact for " ++ to_phone) none)
      | (db1, some contact) =>
        let md := if media_url.truthy then { metadata with media_url := some media_url }
                  else metadata
        let message_data : MessageData :=
          { content := content, from_user := from_user,
            to_contact := some (toString contact._id),
            message_type := message_type, status := "pending",
            direction := "outbound", metadata := md }
        match Message.create db1 now message_data with
        | .error e => .ok (db1, .err e none)
        | .ok (db2, message) =>
          if cfg.TWILIO_ENABLED ∧ cfg.sidTruthy then
            .ok (processSendResult db2 now message (send_via_twilio outcome))
          else if cfg.DIRECT_WHATSAPP_ENABLED then
            .ok (processSendResult db2 now message send_via_direct_whatsapp)
          else
            let db3 := Message.update_status db2 message._id "failed" now
            let m2 := { message with
              status := "failed",
              metadata := { message.metadata with
                error := some "No WhatsApp provider configured" } }
            .ok (DB.saveMessage db3 m2 now, .err "No WhatsApp provider configured" none)

/-! ### app/services/messages.py : the inbound path -/

/-- What `WhatsAppService.receive_message` returns: the created `Message`
object or an error dictionary. -/
inductive RecvResult where
  | msg (m : Message)
  | err (error : String)
deriving DecidableEq

/-- `WhatsAppService.receive_message`: extracts sender, body, media and
provider message id from the webhook dictionary, normalizes the phone,
resolves the contact and creates one inbound `Message` with status
`delivered` whose metadata records the provider name, the provider message
id, the raw payload and a receipt timestamp.  The `ValueError` that
`Message.create` raises on empty content is caught by the surrounding
`try` and returned as an error dictionary. -/
def receive_message (cfg : AppConfig) (db : DB) (now : Nat) (data : Dict) :
    DB × RecvResult :=
  let from_number := dictGet data "From" (dictGet data "from" (.s ""))
  let body := dictGet data "Body" (dictGet data "body" (.s ""))
  let media_urls := dictGet data "MediaUrl0" (dictGet data "media_url" .null)
  let message_sid := dictGet data "MessageSid" (dictGet data "message_id" (.s ""))
  if ¬ from_number.truthy then
    (db, .err "Missing sender phone number")
  else
    let from_phone := format_phone_number from_number.asStr
    if from_phone = "" then
      (db, .err ("Invalid phone number: " ++ from_number.asStr))
    else
      match ensure_contact_exists db now from_phone with
      | (db1, none) => (db1, .err ("Failed to create contact for " ++ from_phone))
      | (db1, some contact) =>
        let message_type := if media_urls.truthy then "media" else "text"
        let metadata : Meta :=
          { provider := some (if cfg.TWILIO_ENABLED then "twilio" else "direct"),
            provider_message_id := some message_sid.asStr,
            raw_webhook := some data,
            received_at := some now,
            media_url := if media_urls.truthy then some media_urls else none }
        let message_data : MessageData :=
          { content := body.asStr, from_user := some (toString contact._id),
            to_contact := none, message_type := message_type,
            status := "delivered", direction := "inbound", metadata := metadata }
        match Message.create db1 now message_data with
        | .error e => (db1, .err e)
        | .ok (db2, m) => (db2, .msg m)

/-! ### app/services/messages.py : status callbacks -/

/-- The fixed provider-to-canonical status table of
`WhatsAppService.handle_status_update`. -/
def status_mapping : List (String × String) :=
  [("sent", "sent"), ("delivered", "delivered"), ("read", "read"),
   ("failed", "failed"), ("queued", "pending")]

/-- Python `status.lower()` (characterwise, as for the ASCII status
vocabulary at hand). -/
def pyLower (s : String) : String :=
  ⟨s.data.map Char.toLower⟩

/-- `status_mapping.get(status.lower(), 'unknown')`. -/
def mapStatus (status : String) : String :=
  match status_mapping.find? (fun kv => kv.1 == pyLower status) with
  | some kv => kv.2
  | none => "unknown"

/-- The outcome of `WhatsAppService.handle_status_update`: the new
database, the boolean the method returns, and whether the
unknown-message warning was logged. -/
structure HSUResult where
  db : DB
  handled : Bool
  warned : Bool
deriving DecidableEq

/-- `WhatsAppService.handle_status_update`: looks the message up by
provider message id; when absent, logs a warning and returns `False`;
when present, maps the provider status through the fixed table (default
`'unknown'`), then `Message.update` sets that mapped value as the current
status and appends the raw provider status to the `status_history` list
merged into the existing metadata.  The lookup uses the spec-modelled
`Message.find_by_provider_id`, and the update is keyed by the found
message's id (the source writes `message.id`; per spec section 3 that is
the Message's opaque id, `_id` on the model class). -/
def handle_status_update (db : DB) (now : Nat) (whatsapp_message_id : Option String)
    (status : String) : HSUResult :=
  match Message.find_by_provider_id db whatsapp_message_id with
  | none => { db := db, handled := false, warned := true }
  | some message =>
    let standard_status := mapStatus status
    let newMeta := { message.metadata with
      status_history := some ((message.metadata.status_history.getD []) ++
        [{ status := status, timestamp := now }]) }
    match Message.update db message._id
        { status := some standard_status, metadata := some newMeta } now with
    | some (db', _) => { db := db', handled := true, warned := false }
    | none => { db := db, handled := true, warned := false }

/-! ### app/services/messages.py : process_incoming_webhook -/

/-- What `WhatsAppService.process_incoming_webhook` returns:
`{'success': True, 'message_id': ...}` or an error dictionary. -/
inductive PIWResult where
  | ok (message_id : String)
  | err (error : String)
deriving DecidableEq

/-- The `provider == 'twilio'` branch of
`WhatsAppService.process_incoming_webhook`: extracts the SID, sender,
body and media URLs from the form payload and forwards a rebuilt
dictionary to `receive_message`.  A non-numeric `NumMedia` raises inside
`int(...)` and is caught by the outer `except`, producing an error
dictionary. -/
def process_incoming_webhook_twilio (cfg : AppConfig) (db : DB) (now : Nat)
    (webhook_data : Dict) : DB × PIWResult :=
  let message_sid := dictGet webhook_data "MessageSid" (dictGet webhook_data "SmsSid" .null)
  let from_number := dictGet webhook_data "From" .null
  let body := dictGet webhook_data "Body" (.s "")
  match (dictGet webhook_data "NumMedia" (.s "0")).asStr.toNat? with
  | none => (db, .err "invalid literal for int()")
  | some num_media =>
    if ¬ message_sid.truthy ∨ ¬ from_number.truthy then
      (db, .err "Missing required fields in webhook data")
    else
      let media_urls := (List.range num_media).filterMap (fun i =>
        let v := dictGet webhook_data ("MediaUrl" ++ toString i) .null
        if v.truthy then some v.asStr else none)
      let payload : Dict :=
        [("MessageSid", message_sid), ("From", from_number), ("Body", body),
         ("MediaUrl0", match media_urls with | [] => .null | u :: _ => .s u),
         ("MediaUrls", .ls media_urls)]
      match receive_message cfg db now payload with
      | (db', .msg m) => (db', .ok (toString m._id))
      | (db', .err e) => (db', .err e)

/-- One element of the `value['messages']` array of a direct-API
(Meta-style) webhook, flattened to the nested fields the source reads:
`id`, `from` (called `sender` here, `from` being reserved in Lean),
`timestamp`, `type`, and the per-type `text`/`image`/`audio`/`video`
sub-dictionaries' `body`/`url`/`caption` entries with their Python
`get` defaults. -/
structure WAInMsg where
  mid : Option String := none
  sender : Option String := none
  timestamp : Option String := none
  type : Option String := none
  text_body : String := ""
  image_url : Option String := none
  image_caption : String := ""
  audio_url : Option String := none
  video_url : Option String := none
  video_caption : String := ""
deriving DecidableEq

/-- One element of the `value['statuses']` array of a direct-API
webhook: its `id` and `status` entries. -/
structure StatusItem where
  id : Option String := none
  status : Option String := none
deriving DecidableEq

/-- The `value` object of a direct-API webhook: presence of the
`messages` / `statuses` keys. -/
structure DirectValue where
  messages : Option (List WAInMsg) := none
  statuses : Option (List StatusItem) := none
deriving DecidableEq

/-- One element of `entry[...]['changes']`. -/
structure DirectChange where
  value : Option DirectValue := none
deriving DecidableEq

/-- One element of the `entry` array. -/
structure DirectEntry where
  changes : Option (List DirectChange) := none
deriving DecidableEq

/-- A direct-API (Meta-style) webhook JSON body, down to the parts the
source walks. -/
structure DirectWebhook where
  object : Option String := none
  entry : Option (List DirectEntry) := none
deriving DecidableEq

/-- Python `l[0]`: raises `IndexError` on an empty list. -/
def pyIndex0 {α : Type} (l : List α) : Except String α :=
  match l with
  | [] => .error "IndexError"
  | x :: _ => .ok x

/-- The `provider == 'direct'` branch of
`WhatsAppService.process_incoming_webhook`: walks
`entry[0].changes[0].value`; a `messages` array present means an inbound
message whose body/media depend on the message sub-type; anything else is
an unrecognized format; `KeyError`/`IndexError` during the walk are caught
and become an error dictionary. -/
def process_incoming_webhook_direct (cfg : AppConfig) (db : DB) (now : Nat)
    (webhook_data : DirectWebhook) : DB × PIWResult :=
  match pyIndex0 (webhook_data.entry.getD [{}]) with
  | .error e => (db, .err ("Error parsing webhook: " ++ e))
  | .ok entry =>
    match pyIndex0 (entry.changes.getD [{}]) with
    | .error e => (db, .err ("Error parsing webhook: " ++ e))
    | .ok change =>
      let value := change.value.getD {}
      match value.messages with
      | none => (db, .err "Unrecognized webhook format")
      | some msgs =>
        match pyIndex0 msgs with
        | .error e => (db, .err ("Error parsing webhook: " ++ e))
        | .ok m =>
          let message_type := m.type.getD "text"
          let body :=
            if message_type = "text" then m.text_body
            else if message_type = "image" then m.image_caption
            else if message_type = "video" then m.video_caption
            else ""
          let media_url : Option String :=
            if message_type = "image" then m.image_url
            else if message_type = "audio" then m.audio_url
            else if message_type = "video" then m.video_url
            else none
          let payload : Dict :=
            [("message_id", optPy m.mid), ("from", optPy m.sender),
             ("body", .s body), ("media_url", optPy media_url),
             ("timestamp", optPy m.timestamp), ("type", .s message_type)]
          match receive_message cfg db now payload with
          | (db', .msg created) => (db', .ok (toString created._id))
          | (db', .err e) => (db', .err e)

/-! ### app/routes/whatsapp.py -/

/-- An HTTP response, reduced to its status code and the `success` field
of its JSON body when one is present. -/
structure HttpResp where
  status : Nat
  success : Option Bool := none
deriving DecidableEq

/-- `dictGet` restricted to string values (`None`/missing give `none`). -/
def dictGetStr (d : Dict) (k : String) : Option String :=
  match dictGet d k .null with
  | .s v => some v
  | _ => none

/-- `POST /api/whatsapp/webhook` (`whatsapp.py::webhook`).  For the
Twilio provider: outside debug mode the Twilio signature must validate,
otherwise the request is rejected with 403 before any processing; a form
carrying `MessageSid` is processed as an inbound message; a form carrying
`SmsSid` and `MessageStatus` (and no `MessageSid`) is processed as a
status update via `handle_status_update`; anything else is acknowledged.
For the direct provider the JSON body is forwarded to the direct
processing branch.  `debug` is `current_app.debug` and `sigValid` the
verdict of `TwilioService.validate_webhook` (the external
`RequestValidator.validate` call). -/
def whatsapp_webhook_post (cfg : AppConfig) (db : DB) (now : Nat)
    (provider : String) (debug : Bool) (sigValid : Bool) (form : Dict)
    (jsonBody : Option DirectWebhook) : DB × HttpResp :=
  if provider = "twilio" then
    let is_valid_request := if debug then true else sigValid
    if ¬ is_valid_request then
      (db, { status := 403 })
    else if dictHas form "MessageSid" then
      let (db', _) := process_incoming_webhook_twilio cfg db now form
      (db', { status := 200, success := some true })
    else if dictHas form "SmsSid" ∧ dictHas form "MessageStatus" then
      let status := (dictGet form "MessageStatus" .null).asStr
      let r := handle_status_update db now (dictGetStr form "MessageSid") status
      (r.db, { status := 200, success := some true })
    else
      (db, { status := 200, success := some true })
  else
    match jsonBody with
    | none => (db, { status := 400, success := some false })
    | some jb =>
      let (db', _) := process_incoming_webhook_direct cfg db now jb
      (db', { status := 200, success := some true })

/-- The embedding of `ObjectId(contact_id)`: a parse that succeeds
exactly when the id string is a nonempty digit string (standing in for
ObjectId validity; `Contact.find_by_id` raises on an unparsable id). -/
def digitsToNat : List Char → Nat → Option Nat
  | [], acc => some acc
  | c :: t, acc =>
    if c.isDigit then digitsToNat t (acc * 10 + (c.toNat - 48)) else none

/-- Parse a contact-id string, `none` when malformed. -/
def pyParseId (s : String) : Option Nat :=
  match s.data with
  | [] => none
  | l => digitsToNat l 0

/-- The mark-as-read loop at the end of `whatsapp.py::get_chat`
(lines 406-409): every message of the returned page with direction
`inbound` and a status other than `read` has its status set to `read`
via `Message.update_status`. -/
def mark_inbound_read (db : DB) (now : Nat) (page : List Message) : DB :=
  { db with
    messages := page.foldl
      (fun acc m =>
        if m.direction == "inbound" && m.status != "read" then
          setStatusList acc m._id "read" now
        else acc)
      db.messages }

/-- The part of `get_chat` shared by all contact-resolution branches:
fetch the page with `Message.find_by_contact` (the unauthenticated
branch, `user_id is None`), then run the mark-as-read loop.  The JSON
message list of the response (built before the loop runs) is elided: the
claims under verification concern only the stored state and the HTTP
status. -/
def get_chat_core (db : DB) (now : Nat) (contact : Contact) (limit skip : Nat) :
    DB × HttpResp :=
  let messages := Message.find_by_contact db (toString contact._id) limit skip
  (mark_inbound_read db now messages, { status := 200, success := some true })

/-- `GET /api/whatsapp/chat/<contact_id>` (`whatsapp.py::get_chat`): a
phone-shaped id is resolved (or lazily created) by phone, any other id is
parsed as an ObjectId (modelled by `pyParseId`) and looked up,
then the chat page is returned and its unread inbound messages are
marked read. -/
def get_chat (db : DB) (now : Nat) (contact_id : String) (limit skip : Nat) :
    DB × HttpResp :=
  if startsWithPlus contact_id then
    match Contact.find_by_phone db contact_id with
    | some c => get_chat_core db now c limit skip
    | none =>
      match Contact.create db now
          { phone := contact_id,
            name := some ("WhatsApp User (" ++ contact_id ++ ")") } with
      | .ok (db1, c) => get_chat_core db1 now c limit skip
      | .error _ => (db, { status := 500, success := some false })
  else
    match pyParseId contact_id with
    | none => (db, { status := 400, success := some false })
    | some n =>
      match Contact.find_by_id db n with
      | none => (db, { status := 404, success := some false })
      | some c => get_chat_core db now c limit skip

/-! ### app/routes/webhooks.py -/

/-- `webhooks.py::_handle_status_updates`: feeds every status element
carrying a truthy `id` and `status` to
`WhatsAppService.handle_status_update`. -/
def handle_status_updates_wb (db : DB) (now : Nat) (statuses : List StatusItem) : DB :=
  statuses.foldl
    (fun d st =>
      match st.id, st.status with
      | some i, some s =>
        if i ≠ "" ∧ s ≠ "" then (handle_status_update d now (some i) s).db else d
      | _, _ => d)
    db

/-- `webhooks.py::_handle_incoming_messages`: skips non-text messages;
finds or creates (via the bare constructor, with no display name) the
contact for the sender phone, then stores the incoming message with
status `received`, metadata holding only the provider message id (under
the `whatsapp_message_id` key) and the timestamp — and, the constructor
call passing no `direction`, the model default `'outbound'`. -/
def handle_incoming_messages_wb (db : DB) (now : Nat) (messages : List WAInMsg) : DB :=
  messages.foldl
    (fun d m =>
      if m.type ≠ some "text" then d
      else
        let phone := m.sender.getD ""
        let step :=
          match Contact.find_by_phone d phone with
          | some c => (d, c)
          | none =>
            let c : Contact := { _id := d.nextId, phone := phone }
            (DB.saveContact { d with nextId := d.nextId + 1 } c now, c)
        let d1 := step.1
        let contact := step.2
        let incoming : Message :=
          { _id := d1.nextId, content := m.text_body, from_user := none,
            to_contact := some (toString contact._id), message_type := "text",
            status := "received",
            metadata := { whatsapp_message_id := m.mid, timestamp := m.timestamp },
            created_at := now, updated_at := now }
        DB.saveMessage { d1 with nextId := d1.nextId + 1 } incoming now)
    db

/-- `POST /webhooks/whatsapp` (`webhooks.py::whatsapp_webhook`): walks
every `entry`/`changes`/`value` of a `whatsapp_business_account` payload,
dispatching `statuses` and `messages` arrays to their handlers, and
always acknowledges with HTTP 200 (the exception handler, too, returns
200 to prevent provider retries). -/
def webhooks_whatsapp_post (db : DB) (now : Nat) (data : DirectWebhook) :
    DB × HttpResp :=
  if data.object = some "whatsapp_business_account" then
    let db' := (data.entry.getD []).foldl
      (fun d entry =>
        (entry.changes.getD []).foldl
          (fun d2 change =>
            let value := change.value.getD {}
            let d3 :=
              match value.statuses with
              | some sts => handle_status_updates_wb d2 now sts
              | none => d2
            match value.messages with
            | some msgs => handle_incoming_messages_wb d3 now msgs
            | none => d3)
          d)
      db
    (db', { status := 200, success := some true })
  else
    (db, { status := 200, success := some true })

/-! ### Derived definitions used by the verification -/

/-- A status-update operation applied to the message store: either a
direct `Message.update_status` (as the send path, the chat endpoint and
the `PUT /messages/<id>/status` route invoke it), or a provider status
callback through `WhatsAppService.handle_status_update`. -/
inductive StatusOp where
  | direct (mid : Nat) (status : String)
  | callback (pid : Option String) (status : String)
deriving DecidableEq

/-- Execute one status-update operation against the database. -/
def applyStatusOp (now : Nat) (db : DB) (op : StatusOp) : DB :=
  match op with
  | .direct mid s => Message.update_status db mid s now
  | .callback pid s => (handle_status_update db now pid s).db

/-- The length of the status-history list stored in the metadata of the
message with the given id (0 when the message is absent). -/
def historyLen (db : DB) (mid : Nat) : Nat :=
  match Message.find_by_id db mid with
  | some m => (m.metadata.status_history.getD []).length
  | none => 0

/-- The record `handle_status_update` writes for a found message: the
mapped status becomes the current status, the raw provider status is
appended to the history, `updated_at` is refreshed. -/
def hsuUpdated (m : Message) (st : String) (now : Nat) : Message :=
  { m with
    status := mapStatus st,
    metadata := { m.metadata with
      status_history := some ((m.metadata.status_history.getD []) ++
        [{ status := st, timestamp := now }]) },
    updated_at := now }

/-- Iterated contact resolution, as a sequence of
`_ensure_contact_exists` calls. -/
def resolveAll (db : DB) (now : Nat) (ps : List String) : DB :=
  ps.foldl (fun d q => (ensure_contact_exists d now q).1) db

/-- The contact `_ensure_contact_exists` builds when the phone is not yet
stored (the composition of its `contact_data` dictionary with
`Contact.create`). -/
def newContact (db : DB) (now : Nat) (p : String) : Contact :=
  { _id := db.nextId, phone := p,
    name := some ("WhatsApp User (" ++ p ++ ")"),
    metadata := [("created_from", "whatsapp_service"), ("created_at", toString now)],
    created_at := now, updated_at := now }

/-- The message `Message.create` builds from its argument dictionary. -/
def newMessage (db : DB) (now : Nat) (data : MessageData) : Message :=
  { _id := db.nextId, content := data.content, from_user := data.from_user,
    to_contact := data.to_contact, message_type := data.message_type,
    status := data.status, direction := data.direction,
    metadata := data.metadata, created_at := now, updated_at := now }

/-- The number of stored contacts holding a given phone number. -/
def countPhone (db : DB) (p : String) : Nat :=
  (db.contacts.filter (fun c => c.phone == p)).length

/-- An outbound message as the send path leaves it after a successful
dispatch acknowledgement: status `sent`, provider message id `SM1`. -/
def msg0 : Message :=
  { _id := 0, content := "hi", status := "sent", direction := "outbound",
    metadata := { provider_message_id := some "SM1" } }

/-- A one-message database holding `msg0`. -/
def dbSent : DB := { messages := [msg0], nextId := 1 }

/-- A concrete inbound text message as it appears in a direct-API
webhook's `messages` array. -/
def inMsg : WAInMsg :=
  { mid := some "wamid1", sender := some "+15551234567",
    type := some "text", text_body := "hi" }

/-- A minimal inbound Twilio-style webhook dictionary: sender, body and
provider message id. -/
def inboundPayload (f b sid : String) : Dict :=
  [("From", .s f), ("Body", .s b), ("MessageSid", .s sid)]

/-- The metadata `receive_message` stores for `inboundPayload`: provider
name, provider message id, raw payload and receipt timestamp. -/
def inboundMeta (cfg : AppConfig) (now : Nat) (f b sid : String) : Meta :=
  { provider := some (if cfg.TWILIO_ENABLED then "twilio" else "direct"),
    provider_message_id := some sid,
    raw_webhook := some (inboundPayload f b sid),
    received_at := some now }

/-- The message `receive_message` creates for `inboundPayload` when the
contact did not exist (the contact consumes the first fresh id, the
message the second). -/
def inboundMsg (cfg : AppConfig) (db : DB) (now : Nat) (f b sid : String) : Message :=
  { _id := db.nextId + 1, content := b,
    from_user := some (toString db.nextId), to_contact := none,
    message_type := "text", status := "delivered", direction := "inbound",
    metadata := inboundMeta cfg now f b sid,
    created_at := now, updated_at := now }

/-- The `value` object delivering `inMsg`. -/
def inValue : DirectValue := { messages := some [inMsg] }

/-- The change wrapping `inValue`. -/
def inChange : DirectChange := { value := some inValue }

/-- The entry wrapping `inChange`. -/
def inEntry : DirectEntry := { changes := some [inChange] }

/-- A concrete direct-API webhook payload delivering `inMsg`. -/
def inPayload : DirectWebhook :=
  { object := some "whatsapp_business_account", entry := some [inEntry] }

/-- A stored contact used by the chat-endpoint witness. -/
def chatContact : Contact := { _id := 0, phone := "+15551234567" }

/-- An unread inbound message for that contact. -/
def chatMsg : Message :=
  { _id := 1, content := "hi", from_user := some "0", message_type := "text",
    status := "delivered", direction := "inbound", created_at := 1 }

/-- A database holding the chat-endpoint witness data. -/
def dbChat : DB := { contacts := [chatContact], messages := [chatMsg], nextId := 2 }

/-! ## Helper lemmas -/

/-- A map whose function fixes every member of the list is the identity. -/
theorem map_id_of_fixes {α : Type} (l : List α) (f : α → α)
    (h : ∀ x ∈ l, f x = x) : l.map f = l := by
  induction l with
  | nil => rfl
  | cons x t ih =>
    simp only [List.map_cons]
    rw [h x (List.mem_cons_self x t), ih (fun y hy => h y (List.mem_cons_of_mem x hy))]

/-- Appending after `"+"` yields a string that starts with `+`. -/
theorem startsWithPlus_append (s : String) : startsWithPlus ("+" ++ s) = true := by
  unfold startsWithPlus
  rw [String.data_append]
  rfl

/-- A string of digits only never starts with `+`. -/
theorem startsWithPlusL_filter_digits (l : List Char) :
    startsWithPlusL (l.filter Char.isDigit) = false := by
  cases h : l.filter Char.isDigit with
  | nil => rfl
  | cons c t =>
    have hc : c ∈ l.filter Char.isDigit := h ▸ List.mem_cons_self c t
    have hd : Char.isDigit c = true := (List.mem_filter.mp hc).2
    have hne : c ≠ '+' := by
      intro he
      rw [he] at hd
      exact absurd hd (by decide)
    unfold startsWithPlusL
    exact beq_eq_false_iff_ne.mpr hne

/-- A string that starts with `+` is nonempty. -/
theorem ne_empty_of_startsWithPlus {s : String} (h : startsWithPlus s = true) :
    s ≠ "" := by
  intro he
  rw [he] at h
  exact absurd h (by decide)

/-- When the input already starts with `+` the normalizer returns it
unchanged. -/
theorem format_eq_of_plus (p : String) (h : startsWithPlus p = true) :
    format_phone_number p = p := by
  unfold format_phone_number
  rw [h]
  simp

/-- When the input does not start with `+` the normalizer prefixes the
digit string with `+`. -/
theorem format_eq_of_not_plus (p : String) (h : startsWithPlus p = false) :
    format_phone_number p = "+" ++ (⟨p.data.filter Char.isDigit⟩ : String) := by
  unfold format_phone_number
  rw [h]
  simp only []
  rw [show startsWithPlus (⟨p.data.filter Char.isDigit⟩ : String) = false from
    startsWithPlusL_filter_digits p.data]
  simp

/-- The normalizer's result always starts with `+`. -/
theorem format_startsWithPlus (p : String) :
    startsWithPlus (format_phone_number p) = true := by
  by_cases h : startsWithPlus p
  · rw [format_eq_of_plus p h]
    exact h
  · rw [format_eq_of_not_plus p (by simpa using h)]
    exact startsWithPlus_append _

/-- The phone normalizer never returns the empty string. -/
theorem format_ne_empty (p : String) : format_phone_number p ≠ "" :=
  ne_empty_of_startsWithPlus (format_startsWithPlus p)

/-! ## C8 -/

/-- C8: phone normalization is pure (it is a function of its input alone)
and idempotent — `normalize(normalize(p)) == normalize(p)` — and its
result always begins with `+`. -/
theorem format_phone_number_idempotent (p : String) :
    format_phone_number (format_phone_number p) = format_phone_number p ∧
    startsWithPlus (format_phone_number p) = true :=
  ⟨format_eq_of_plus _ (format_startsWithPlus p), format_startsWithPlus p⟩

/-! ## C9 -/

/-- C9 counterexample: the input `"abc"` contains no digit, yet
normalization does not fail — it returns the string `"+"` — and a send to
that recipient is not rejected: it creates a contact (with phone `"+"`)
and a message before dispatching. -/
theorem digitless_phone_not_rejected :
    format_phone_number "abc" = "+" ∧
    ((send_message { TWILIO_ENABLED := true, TWILIO_ACCOUNT_SID := some "AC1" }
        (.ok "SM1" "queued") {} 0 "hello" "abc" none "text" .null {}).map
      (fun p => (p.1.contacts.map (fun c => c.phone), p.1.messages.length)))
      = .ok (["+"], 1) := by
  refine ⟨by decide, ?_⟩
  rfl

/-- C9 (amended): phone normalization never fails.  On an input whose
digit string is empty it still returns a value: the input itself when it
starts with `+`, and the one-character string `"+"` otherwise — so such a
send is not rejected. -/
theorem format_phone_number_total (p : String)
    (h : p.data.filter Char.isDigit = []) :
    format_phone_number p ≠ "" ∧
    format_phone_number p = (if startsWithPlus p then p else "+") := by
  refine ⟨format_ne_empty p, ?_⟩
  by_cases hp : startsWithPlus p
  · rw [format_eq_of_plus p hp, if_pos hp]
  · rw [format_eq_of_not_plus p (by simpa using hp), if_neg hp, h]
    rfl

/-- Witness for C9 (amended) at the digit-free input `"abc"`. -/
theorem format_phone_number_total_witness :
    format_phone_number "abc" ≠ "" ∧
    format_phone_number "abc" = (if startsWithPlus "abc" then "abc" else "+") :=
  format_phone_number_total "abc" (by decide)

/-! ## C4 -/

/-- C4: a Twilio-style webhook whose signature fails validation outside
debug mode is rejected with HTTP 403 (not 200), and the database — every
Contact and Message — is left exactly as it was. -/
theorem invalid_signature_rejected_without_side_effect
    (cfg : AppConfig) (db : DB) (now : Nat) (form : Dict)
    (jsonBody : Option DirectWebhook) :
    whatsapp_webhook_post cfg db now "twilio" false false form jsonBody
      = (db, { status := 403, success := none }) := by
  rfl

/-! ## Lemmas about id-keyed updates -/

/-- `find?` by id commutes with mapping an id-preserving function. -/
theorem find?_map_id_pres (f : Message → Message)
    (hf : ∀ x, (f x)._id = x._id) (msgs : List Message) (mid : Nat) :
    (msgs.map f).find? (fun x => x._id == mid)
      = (msgs.find? (fun x => x._id == mid)).map f := by
  induction msgs with
  | nil => rfl
  | cons x t ih =>
    by_cases hx : (x._id == mid) = true
    · simp [List.find?, hf x, hx]
    · simp only [Bool.not_eq_true] at hx
      simp [List.find?, hf x, hx, ih]

/-- In a list with pairwise-distinct ids, two members with the same id
are equal. -/
theorem nodup_id_inj {msgs : List Message}
    (h : (msgs.map (fun m => m._id)).Nodup) {a b : Message}
    (ha : a ∈ msgs) (hb : b ∈ msgs) (hid : a._id = b._id) : a = b := by
  exact List.inj_on_of_nodup_map h ha hb hid

/-- In a database with pairwise-distinct message ids, looking a stored
message up by its own id returns it. -/
theorem find_by_id_eq_of_mem {db : DB} {m : Message}
    (hnd : (db.messages.map (fun x => x._id)).Nodup) (hm : m ∈ db.messages) :
    Message.find_by_id db m._id = some m := by
  unfold Message.find_by_id
  cases h : db.messages.find? (fun x => x._id == m._id) with
  | none =>
    have := List.find?_eq_none.mp h m hm
    simp at this
  | some m2 =>
    have h2 := List.find?_some h
    have h2' : m2._id = m._id := by simpa using h2
    rw [nodup_id_inj hnd (List.mem_of_find?_eq_some h) hm h2']

/-- A message found by provider id is a member of the collection. -/
theorem mem_of_find_by_provider_id {db : DB} {pid : Option String} {m : Message}
    (h : Message.find_by_provider_id db pid = some m) : m ∈ db.messages := by
  unfold Message.find_by_provider_id at h
  cases pid with
  | none => exact absurd h (by simp)
  | some s => exact List.mem_of_find?_eq_some h

/-- Saving a message whose id is already present rewrites in place. -/
theorem saveMessage_of_mem {db : DB} {m : Message} (now : Nat)
    (h : ∃ x ∈ db.messages, x._id = m._id) :
    DB.saveMessage db m now =
      { db with
        messages := db.messages.map
          (fun x => if x._id == m._id then { m with updated_at := now } else x) } := by
  unfold DB.saveMessage
  have ha : db.messages.any (fun x => x._id == m._id) = true := by
    obtain ⟨x, hx, he⟩ := h
    exact List.any_eq_true.mpr ⟨x, hx, beq_iff_eq.mpr he⟩
  simp [ha]

/-- The saved copy of a message (with its refreshed `updated_at`) is in
the collection afterwards, whether the save was an insert or a rewrite. -/
theorem saveMessage_mem (db : DB) (m : Message) (now : Nat) :
    { m with updated_at := now } ∈ (DB.saveMessage db m now).messages := by
  unfold DB.saveMessage
  by_cases ha : db.messages.any (fun x => x._id == m._id) = true
  · simp only [ha, if_true]
    obtain ⟨x, hx, he⟩ := List.any_eq_true.mp ha
    refine List.mem_map.mpr ⟨x, hx, ?_⟩
    simp [he]
  · simp only [ha, if_false]
    simp

/-- `setStatusList` does not change the stored ids. -/
theorem ids_setStatusList (msgs : List Message) (mid : Nat) (s : String) (now : Nat) :
    (setStatusList msgs mid s now).map (fun m => m._id)
      = msgs.map (fun m => m._id) := by
  induction msgs with
  | nil => rfl
  | cons x t ih =>
    simp only [setStatusList, List.map_cons] at ih ⊢
    rw [ih]
    congr 1
    by_cases hx : (x._id == mid) = true
    · simp [hx]
    · simp only [Bool.not_eq_true] at hx
      simp [hx]

/-- Mapping an id-preserving function over the store keeps the id list. -/
theorem ids_map_id_pres (f : Message → Message)
    (hf : ∀ x, (f x)._id = x._id) (msgs : List Message) :
    (msgs.map f).map (fun m => m._id) = msgs.map (fun m => m._id) := by
  induction msgs with
  | nil => rfl
  | cons x t ih => simp only [List.map_cons, hf x, ih]

/-- Mapping a function that preserves both id and metadata over the
store does not change any message's history length. -/
theorem historyLen_map_meta_pres (db : DB) (f : Message → Message)
    (hid : ∀ x, (f x)._id = x._id) (hmeta : ∀ x, (f x).metadata = x.metadata)
    (mid : Nat) :
    historyLen { db with messages := db.messages.map f } mid = historyLen db mid := by
  unfold historyLen Message.find_by_id
  simp only []
  rw [find?_map_id_pres f hid]
  cases h : db.messages.find? (fun x => x._id == mid) with
  | none => rfl
  | some m => simp [hmeta m]

/-- `handle_status_update` on a found message rewrites exactly that
message (by id) to its `hsuUpdated` form. -/
theorem handle_status_update_found {db : DB} (now : Nat) {pid : Option String}
    (st : String) {m : Message}
    (hnd : (db.messages.map (fun x => x._id)).Nodup)
    (hfind : Message.find_by_provider_id db pid = some m) :
    handle_status_update db now pid st =
      { db := { db with
          messages := db.messages.map
            (fun x => if x._id == m._id then hsuUpdated m st now else x) },
        handled := true, warned := false } := by
  have hmem : m ∈ db.messages := mem_of_find_by_provider_id hfind
  have hfid : Message.find_by_id db m._id = some m := find_by_id_eq_of_mem hnd hmem
  have hsave := @saveMessage_of_mem db (hsuUpdated m st now) now ⟨m, hmem, rfl⟩
  unfold handle_status_update
  rw [hfind]
  dsimp only []
  unfold Message.update
  rw [hfid]
  dsimp only []
  show ({ db := DB.saveMessage db (hsuUpdated m st now) now,
          handled := true, warned := false } : HSUResult) = _
  rw [hsave]
  rfl

/-- Every status-update operation preserves the list of stored ids. -/
theorem ids_applyStatusOp (now : Nat) (db : DB) (op : StatusOp)
    (hnd : (db.messages.map (fun x => x._id)).Nodup) :
    (applyStatusOp now db op).messages.map (fun m => m._id)
      = db.messages.map (fun m => m._id) := by
  cases op with
  | direct tid s =>
    show (setStatusList db.messages tid s now).map (fun m => m._id) = _
    exact ids_setStatusList db.messages tid s now
  | callback pid s =>
    cases hf : Message.find_by_provider_id db pid with
    | none =>
      have h0 : applyStatusOp now db (.callback pid s) = db := by
        show (handle_status_update db now pid s).db = db
        unfold handle_status_update
        rw [hf]
      rw [h0]
    | some m =>
      have h1 : applyStatusOp now db (.callback pid s)
          = { db with
              messages := db.messages.map
                (fun x => if x._id == m._id then hsuUpdated m s now else x) } := by
        show (handle_status_update db now pid s).db = _
        rw [handle_status_update_found now s hnd hf]
      rw [h1]
      apply ids_map_id_pres
      intro x
      by_cases hx : (x._id == m._id) = true
      · simp only [hx, if_true]
        have h2 : (hsuUpdated m s now)._id = m._id := rfl
        rw [h2]
        exact (beq_iff_eq.mp hx).symm
      · simp only [Bool.not_eq_true] at hx
        simp [hx]

/-- One status-update operation never shrinks a message's status
history. -/
theorem historyLen_applyStatusOp (db : DB) (now : Nat) (op : StatusOp) (mid : Nat)
    (hnd : (db.messages.map (fun x => x._id)).Nodup) :
    historyLen db mid ≤ historyLen (applyStatusOp now db op) mid := by
  cases op with
  | direct tid s =>
    have heq : applyStatusOp now db (.direct tid s)
        = { db with
            messages := db.messages.map
              (fun x => if x._id == tid then { x with status := s, updated_at := now } else x) } := rfl
    rw [heq, historyLen_map_meta_pres]
    · intro x
      by_cases hx : (x._id == tid) = true <;> simp [hx]
    · intro x
      by_cases hx : (x._id == tid) = true <;> simp [hx]
  | callback pid s =>
    cases hf : Message.find_by_provider_id db pid with
    | none =>
      have h0 : applyStatusOp now db (.callback pid s) = db := by
        show (handle_status_update db now pid s).db = db
        unfold handle_status_update
        rw [hf]
      rw [h0]
    | some m =>
      have hmem : m ∈ db.messages := mem_of_find_by_provider_id hf
      have hg : ∀ x : Message,
          ((if x._id == m._id then hsuUpdated m s now else x))._id = x._id := by
        intro x
        by_cases hx : (x._id == m._id) = true
        · simp only [hx, if_true]
          exact (beq_iff_eq.mp hx).symm
        · simp only [Bool.not_eq_true] at hx
          simp [hx]
      have heq : applyStatusOp now db (.callback pid s)
          = { db with
              messages := db.messages.map
                (fun x => if x._id == m._id then hsuUpdated m s now else x) } := by
        show (handle_status_update db now pid s).db = _
        rw [handle_status_update_found now s hnd hf]
      rw [heq]
      by_cases hm : mid = m._id
      · rw [hm]
        have hfid : db.messages.find? (fun x => x._id == m._id) = some m := by
          have h5 := find_by_id_eq_of_mem hnd hmem
          unfold Message.find_by_id at h5
          exact h5
        unfold historyLen Message.find_by_id
        simp only []
        rw [find?_map_id_pres _ hg, hfid]
        simp only [Option.map_some', beq_self_eq_true, if_true]
        unfold hsuUpdated
        simp
      · unfold historyLen Message.find_by_id
        simp only []
        rw [find?_map_id_pres _ hg]
        cases h4 : db.messages.find? (fun x => x._id == mid) with
        | none => simp
        | some m4 =>
          have h6 : m4._id = mid := by simpa using List.find?_some h4
          have h7 : ¬ (m4._id = m._id) := by
            rw [h6]
            exact hm
          simp [h7]

/-! ## C2 -/

/-- C2 counterexample: a status callback carrying the provider status
`queued` (mapped to `pending` by the fixed table) moves a message whose
status is `sent` back to `pending` — the status of a created Message can
move backward along the chain, contrary to the claim. -/
theorem sent_message_moved_back_to_pending :
    dbSent.messages.map (fun m => m.status) = ["sent"] ∧
    (handle_status_update dbSent 5 (some "SM1") "queued").db.messages.map
      (fun m => m.status) = ["pending"] := by
  constructor
  · rfl
  · decide

/-- C2 (amended): across every sequence of status-update operations
(direct `Message.update_status` calls and `handle_status_update`
callbacks) the length of the status-history list in a message's metadata
is monotonically non-decreasing; the status field itself, however, is set
unconditionally by these operations and can move backward (see the
counterexample). -/
theorem status_history_monotone (db : DB) (now : Nat) (mid : Nat)
    (ops : List StatusOp)
    (hnd : (db.messages.map (fun x => x._id)).Nodup) :
    historyLen db mid ≤ historyLen (ops.foldl (applyStatusOp now) db) mid := by
  induction ops generalizing db with
  | nil => simp
  | cons op rest ih =>
    simp only [List.foldl_cons]
    have h1 := historyLen_applyStatusOp db now op mid hnd
    have h2 := ih (applyStatusOp now db op) (by rw [ids_applyStatusOp now db op hnd]; exact hnd)
    exact le_trans h1 h2

/-- Witness for C2 (amended): a concrete two-callback run on `dbSent`. -/
theorem status_history_monotone_witness :
    historyLen dbSent 0 ≤ historyLen
      ([StatusOp.callback (some "SM1") "queued",
        StatusOp.callback (some "SM1") "delivered"].foldl (applyStatusOp 5) dbSent) 0 :=
  status_history_monotone dbSent 5 0
    [StatusOp.callback (some "SM1") "queued", StatusOp.callback (some "SM1") "delivered"]
    (by decide)

/-! ## C7 -/

/-- C7 counterexample: a status callback with the unrecognized provider
status `bizarre` is mapped to `unknown`, and `unknown` IS set as the
Message's current status, while the history records the raw string
`bizarre` (not `unknown`) — contrary to the claim on both counts. -/
theorem unknown_status_set_as_current :
    mapStatus "bizarre" = "unknown" ∧
    (handle_status_update dbSent 5 (some "SM1") "bizarre").db.messages.map
      (fun m => (m.status, (m.metadata.status_history.getD []).map (fun e => e.status)))
      = [("unknown", ["bizarre"])] := by
  constructor
  · decide
  · decide

/-- C7 (amended): a status callback whose provider status is outside the
fixed mapping table maps to the sentinel `unknown`, which is set as the
Message's current status field, while the raw provider status string is
what gets appended to the status-history list in its metadata. -/
theorem unknown_status_update_shape (db : DB) (now : Nat) (pid : String)
    (st : String) (m : Message)
    (hnd : (db.messages.map (fun x => x._id)).Nodup)
    (hfind : Message.find_by_provider_id db (some pid) = some m)
    (hunk : status_mapping.find? (fun kv => kv.1 == pyLower st) = none) :
    ∃ db', handle_status_update db now (some pid) st
        = { db := db', handled := true, warned := false } ∧
      Message.find_by_id db' m._id = some { m with
        status := "unknown",
        metadata := { m.metadata with
          status_history := some ((m.metadata.status_history.getD []) ++
            [{ status := st, timestamp := now }]) },
        updated_at := now } := by
  have hmem : m ∈ db.messages := mem_of_find_by_provider_id hfind
  have hmap : mapStatus st = "unknown" := by
    unfold mapStatus
    rw [hunk]
  refine ⟨_, handle_status_update_found now st hnd hfind, ?_⟩
  have hfid : db.messages.find? (fun x => x._id == m._id) = some m := by
    have := find_by_id_eq_of_mem hnd hmem
    unfold Message.find_by_id at this
    exact this
  unfold Message.find_by_id
  simp only []
  rw [find?_map_id_pres _ (fun x => by
    by_cases hx : (x._id == m._id) = true
    · simp only [hx, if_true]
      exact (beq_iff_eq.mp hx).symm
    · simp only [Bool.not_eq_true] at hx
      simp [hx])]
  rw [hfid]
  simp only [Option.map_some', beq_self_eq_true, if_true]
  unfold hsuUpdated
  rw [hmap]

/-- Witness for C7 (amended) on the concrete database `dbSent`. -/
theorem unknown_status_update_shape_witness :
    ∃ db', handle_status_update dbSent 5 (some "SM1") "bizarre"
        = { db := db', handled := true, warned := false } ∧
      Message.find_by_id db' msg0._id = some { msg0 with
        status := "unknown",
        metadata := { msg0.metadata with
          status_history := some ((msg0.metadata.status_history.getD []) ++
            [{ status := "bizarre", timestamp := 5 }]) },
        updated_at := 5 } :=
  unknown_status_update_shape dbSent 5 "SM1" "bizarre" msg0
    (by decide) (by decide) (by decide)

/-! ## C3 -/

/-- C3: a status callback whose provider message id matches no stored
message performs the lookup, logs a warning and raises nothing
(`handle_status_update` returns `False` with the store untouched), and
the webhook route still acknowledges it: the Twilio status-update branch
of `POST /api/whatsapp/webhook` answers HTTP 200 with `success: true` and
leaves the database unchanged. -/
theorem unmatched_status_callback_acknowledged
    (cfg : AppConfig) (db : DB) (now : Nat) (pid : Option String) (st : String)
    (sid stt : String) (debug sigValid : Bool)
    (hfind : Message.find_by_provider_id db pid = none)
    (hdbg : debug = true ∨ sigValid = true) :
    handle_status_update db now pid st = { db := db, handled := false, warned := true } ∧
    whatsapp_webhook_post cfg db now "twilio" debug sigValid
      [("SmsSid", .s sid), ("MessageStatus", .s stt)] none
      = (db, { status := 200, success := some true }) := by
  constructor
  · unfold handle_status_update
    rw [hfind]
  · have hv : (if debug then true else sigValid) = true := by
      cases hdbg with
      | inl h => simp [h]
      | inr h => cases debug <;> simp [h]
    unfold whatsapp_webhook_post
    simp only [hv]
    simp [dictHas, dictGet, dictGetStr, List.find?, handle_status_update,
      Message.find_by_provider_id]

/-- Witness for C3 on a concrete callback against the empty store. -/
theorem unmatched_status_callback_acknowledged_witness :
    handle_status_update ({} : DB) 0 (some "SMX") "delivered"
        = { db := {}, handled := false, warned := true } ∧
    whatsapp_webhook_post {} {} 0 "twilio" true false
      [("SmsSid", PyVal.s "SM1"), ("MessageStatus", PyVal.s "delivered")] none
      = ({}, { status := 200, success := some true }) :=
  unmatched_status_callback_acknowledged {} {} 0 (some "SMX") "delivered"
    "SM1" "delivered" true false (by decide) (Or.inl rfl)

/-! ## Contact-resolution lemmas -/

/-- When the phone is absent, no stored contact carries it. -/
theorem countPhone_zero_of_find_none {db : DB} {p : String}
    (h : Contact.find_by_phone db p = none) : countPhone db p = 0 := by
  unfold Contact.find_by_phone at h
  unfold countPhone
  have h1 := List.find?_eq_none.mp h
  rw [List.filter_eq_nil_iff.mpr (fun c hc => h1 c hc)]
  rfl

/-- With pairwise-distinct phones, at most one contact per phone. -/
theorem count_filter_phone_le_one (l : List Contact) (p : String)
    (hu : (l.map (fun c => c.phone)).Nodup) :
    (l.filter (fun c => c.phone == p)).length ≤ 1 := by
  induction l with
  | nil => simp
  | cons c t ih =>
    rw [List.map_cons, List.nodup_cons] at hu
    by_cases hc : (c.phone == p) = true
    · have hp : c.phone = p := beq_iff_eq.mp hc
      have ht : t.filter (fun x => x.phone == p) = [] := by
        apply List.filter_eq_nil_iff.mpr
        intro x hx hxp
        exact hu.1 (hp ▸ (beq_iff_eq.mp hxp) ▸ List.mem_map_of_mem (fun c => c.phone) hx)
      simp [List.filter_cons, hc, ht]
    · simp only [Bool.not_eq_true] at hc
      simp only [List.filter_cons, hc]
      exact ih hu.2

/-- With pairwise-distinct phones, a found phone has exactly one
contact. -/
theorem countPhone_one_of_find_some {db : DB} {p : String} {c : Contact}
    (hu : (db.contacts.map (fun c => c.phone)).Nodup)
    (h : Contact.find_by_phone db p = some c) : countPhone db p = 1 := by
  unfold Contact.find_by_phone at h
  have hmem : c ∈ db.contacts := List.mem_of_find?_eq_some h
  have hcp0 := List.find?_some h
  have hcp : (c.phone == p) = true := by simpa using hcp0
  have hge : 1 ≤ countPhone db p := by
    unfold countPhone
    have hcf : c ∈ db.contacts.filter (fun x => x.phone == p) :=
      List.mem_filter.mpr ⟨hmem, hcp⟩
    exact List.length_pos_of_mem hcf
  exact Nat.le_antisymm (count_filter_phone_le_one db.contacts p hu) hge

/-- `_ensure_contact_exists` on an absent, nonempty phone appends exactly
the generated contact. -/
theorem ensure_create {db : DB} {p : String} (now : Nat)
    (hwf : db.WF) (hp : p ≠ "")
    (hn : Contact.find_by_phone db p = none) :
    ensure_contact_exists db now p =
      ({ db with
          contacts := db.contacts ++ [newContact db now p],
          nextId := db.nextId + 1 },
        some (newContact db now p)) := by
  unfold ensure_contact_exists
  rw [hn]
  dsimp only []
  unfold Contact.create
  dsimp only []
  rw [if_neg hp]
  dsimp only []
  unfold DB.saveContact
  have ha : db.contacts.any (fun x => x._id == db.nextId) = false := by
    apply List.any_eq_false.mpr
    intro c hc
    simp only [beq_iff_eq]
    exact Nat.ne_of_lt (hwf.1 c hc)
  simp only [ha]
  rfl

/-- `_ensure_contact_exists` preserves database well-formedness. -/
theorem WF_ensure (db : DB) (now : Nat) (p : String) (hwf : db.WF) :
    (ensure_contact_exists db now p).1.WF := by
  cases hn : Contact.find_by_phone db p with
  | some c =>
    unfold ensure_contact_exists
    rw [hn]
    exact hwf
  | none =>
    by_cases hp : p = ""
    · subst hp
      unfold ensure_contact_exists Contact.create
      rw [hn]
      dsimp only []
      rw [if_pos rfl]
      exact hwf
    · rw [ensure_create now hwf hp hn]
      refine ⟨?_, ?_⟩
      · intro c hc
        rcases List.mem_append.mp hc with h | h
        · exact Nat.lt_succ_of_lt (hwf.1 c h)
        · rw [List.mem_singleton.mp h]
          exact Nat.lt_succ_self _
      · intro m hm
        exact Nat.lt_succ_of_lt (hwf.2 m hm)

/-- One resolution step: phones stay pairwise distinct, the resolved
phone ends with exactly one contact, and any phone that already had
exactly one contact keeps exactly one. -/
theorem ensure_phones (db : DB) (now : Nat) (p : String)
    (hwf : db.WF) (hu : (db.contacts.map (fun c => c.phone)).Nodup) :
    (((ensure_contact_exists db now p).1.contacts.map (fun c => c.phone)).Nodup) ∧
    (p ≠ "" → countPhone (ensure_contact_exists db now p).1 p = 1) ∧
    (∀ q, countPhone db q = 1 → countPhone (ensure_contact_exists db now p).1 q = 1) := by
  cases hn : Contact.find_by_phone db p with
  | some c =>
    have he : ensure_contact_exists db now p = (db, some c) := by
      unfold ensure_contact_exists
      rw [hn]
    rw [he]
    exact ⟨hu, fun _ => countPhone_one_of_find_some hu hn, fun q hq => hq⟩
  | none =>
    by_cases hp : p = ""
    · have he : ensure_contact_exists db now p = (db, none) := by
        subst hp
        unfold ensure_contact_exists Contact.create
        rw [hn]
        dsimp only []
        rw [if_pos rfl]
      rw [he]
      exact ⟨hu, fun h => absurd hp h, fun q hq => hq⟩
    · rw [ensure_create now hwf hp hn]
      have hnotmem : p ∉ db.contacts.map (fun c => c.phone) := by
        intro hmem
        obtain ⟨c, hc, hcp⟩ := List.mem_map.mp hmem
        exact absurd hcp (by
          have := List.find?_eq_none.mp hn c hc
          simpa using this)
      refine ⟨?_, ?_, ?_⟩
      · simp only [List.map_append]
        rw [List.nodup_append]
        refine ⟨hu, List.nodup_singleton _, ?_⟩
        intro a ha hb
        rw [List.mem_singleton.mp hb] at ha
        exact hnotmem ha
      · intro _
        show ((db.contacts ++ [newContact db now p]).filter
          (fun c => c.phone == p)).length = 1
        rw [List.filter_append]
        have hn2 : db.contacts.find? (fun c => c.phone == p) = none := hn
        rw [List.filter_eq_nil_iff.mpr (fun c hc => List.find?_eq_none.mp hn2 c hc)]
        simp [newContact]
      · intro q hq
        show ((db.contacts ++ [newContact db now p]).filter
          (fun c => c.phone == q)).length = 1
        rw [List.filter_append]
        by_cases hpq : p = q
        · exfalso
          rw [hpq] at hn
          rw [countPhone_zero_of_find_none hn] at hq
          exact absurd hq (by decide)
        · have : ([newContact db now p].filter (fun c => c.phone == q)) = [] := by
            simp [newContact, List.filter_cons, beq_eq_false_iff_ne.mpr hpq]
          rw [this, List.append_nil]
          exact hq

/-- Iterated resolution: phones stay pairwise distinct and every
resolved phone has exactly one contact at the end. -/
theorem resolveAll_props (db : DB) (now : Nat) (ps : List String)
    (hwf : db.WF) (hu : (db.contacts.map (fun c => c.phone)).Nodup)
    (hps : ∀ q ∈ ps, q ≠ "") :
    ((resolveAll db now ps).contacts.map (fun c => c.phone)).Nodup ∧
    (∀ q ∈ ps, countPhone (resolveAll db now ps) q = 1) ∧
    (∀ q, countPhone db q = 1 → countPhone (resolveAll db now ps) q = 1) := by
  induction ps generalizing db with
  | nil => exact ⟨hu, fun q hq => absurd hq (List.not_mem_nil q), fun q hq => hq⟩
  | cons r rest ih =>
    have hr : r ≠ "" := hps r (List.mem_cons_self r rest)
    have hstep := ensure_phones db now r hwf hu
    have hwf1 := WF_ensure db now r hwf
    have hrest := ih (ensure_contact_exists db now r).1 hwf1 hstep.1
      (fun q hq => hps q (List.mem_cons_of_mem r hq))
    have hall : resolveAll db now (r :: rest)
        = resolveAll (ensure_contact_exists db now r).1 now rest := rfl
    rw [hall]
    refine ⟨hrest.1, ?_, ?_⟩
    · intro q hq
      rcases List.mem_cons.mp hq with h | h
      · subst h
        exact hrest.2.2 q (hstep.2.1 hr)
      · exact hrest.2.1 q h
    · intro q hq
      exact hrest.2.2 q (hstep.2.2 q hq)

/-! ## C5 -/

/-- C5: contact resolution is an idempotent find-or-create keyed on the
phone: resolving an already-stored phone returns that contact and changes
nothing; resolving an absent phone appends exactly one contact carrying
that phone and the generated placeholder display name; and after any
sequence of resolutions each resolved phone has exactly one contact,
phones remaining pairwise distinct. -/
theorem contact_resolution_find_or_create (db : DB) (now : Nat) (p : String)
    (ps : List String)
    (hwf : db.WF) (hp : p ≠ "") (hps : ∀ q ∈ ps, q ≠ "")
    (hu : (db.contacts.map (fun c => c.phone)).Nodup) :
    (∀ c, Contact.find_by_phone db p = some c →
      ensure_contact_exists db now p = (db, some c)) ∧
    (Contact.find_by_phone db p = none →
      ∃ c, ensure_contact_exists db now p =
          ({ db with contacts := db.contacts ++ [c], nextId := db.nextId + 1 }, some c) ∧
        c.phone = p ∧ c.name = some ("WhatsApp User (" ++ p ++ ")")) ∧
    ((resolveAll db now ps).contacts.map (fun c => c.phone)).Nodup ∧
    (∀ q ∈ ps, countPhone (resolveAll db now ps) q = 1) := by
  have hres := resolveAll_props db now ps hwf hu hps
  refine ⟨?_, ?_, hres.1, hres.2.1⟩
  · intro c hc
    unfold ensure_contact_exists
    rw [hc]
  · intro hn
    exact ⟨newContact db now p, ensure_create now hwf hp hn, rfl, rfl⟩

/-- Witness for C5: resolving `"+15551234567"` twice against the empty
store. -/
theorem contact_resolution_find_or_create_witness :
    (∀ c, Contact.find_by_phone {} "+15551234567" = some c →
      ensure_contact_exists {} 0 "+15551234567" = ({}, some c)) ∧
    (Contact.find_by_phone {} "+15551234567" = none →
      ∃ c, ensure_contact_exists {} 0 "+15551234567" =
          ({ ({} : DB) with
              contacts := DB.contacts {} ++ [c],
              nextId := DB.nextId {} + 1 },
            some c) ∧
        c.phone = "+15551234567" ∧
        c.name = some ("WhatsApp User (" ++ "+15551234567" ++ ")")) ∧
    ((resolveAll {} 0 ["+15551234567", "+15551234567"]).contacts.map
      (fun c => c.phone)).Nodup ∧
    (∀ q ∈ ["+15551234567", "+15551234567"],
      countPhone (resolveAll {} 0 ["+15551234567", "+15551234567"]) q = 1) :=
  contact_resolution_find_or_create {} 0 "+15551234567"
    ["+15551234567", "+15551234567"] (by decide) (by decide)
    (by intro q hq; fin_cases hq <;> decide) (by decide)

/-- `Message.create` on a well-formed store with nonempty content
appends exactly the generated message. -/
theorem message_create_append {db : DB} (now : Nat) {data : MessageData}
    (hwf : db.WF) (hc : data.content ≠ "") :
    Message.create db now data =
      .ok ({ db with
              messages := db.messages ++ [newMessage db now data],
              nextId := db.nextId + 1 },
        newMessage db now data) := by
  unfold Message.create
  rw [if_neg hc]
  dsimp only []
  unfold DB.saveMessage
  have ha : db.messages.any (fun x => x._id == db.nextId) = false := by
    apply List.any_eq_false.mpr
    intro m hm
    simp only [beq_iff_eq]
    exact Nat.ne_of_lt (hwf.2 m hm)
  simp only [ha]
  rfl

/-! ## C6 -/

/-- C6 counterexample: the registered `/webhooks/whatsapp` route, given an
inbound message webhook carrying a sender phone and a body with no prior
Contact, stores the Message with status `received` (not `delivered`) and
direction `outbound` (the route passes no direction, so the model default
applies), and its metadata carries neither the provider name nor the raw
payload — against the claim's `inbound`/`delivered`/metadata shape. -/
theorem inbound_webhook_alternate_route_shape :
    ((webhooks_whatsapp_post {} 7 inPayload).1.messages.map
      (fun m => (m.status, m.direction))) = [("received", "outbound")] ∧
    ((webhooks_whatsapp_post {} 7 inPayload).1.messages.map
      (fun m => (m.metadata.provider, m.metadata.raw_webhook))) = [(none, none)] ∧
    (webhooks_whatsapp_post {} 7 inPayload).1.contacts.map (fun c => c.phone)
      = ["+15551234567"] ∧
    (webhooks_whatsapp_post {} 7 inPayload).2
      = { status := 200, success := some true } :=
  ⟨by decide, by decide, by decide, by decide⟩

/-- C6 (amended): an inbound webhook processed by
`WhatsAppService.receive_message` (the path behind the WhatsApp-blueprint
webhook), carrying a sender phone and a nonempty body, with no Contact
stored for the normalized phone, produces exactly one new Contact with
that phone and exactly one new Message with direction `inbound`, status
`delivered`, content equal to the body, and metadata carrying the
provider name, the provider message id and the raw payload; the secondary
`/webhooks/whatsapp` route instead stores status `received`, direction
`outbound` and only the provider message id and timestamp in metadata
(see the counterexample). -/
theorem receive_message_inbound_shape
    (cfg : AppConfig) (db : DB) (now : Nat) (f b sid : String)
    (hwf : db.WF) (hf : f ≠ "") (hb : b ≠ "")
    (hnc : Contact.find_by_phone db (format_phone_number f) = none) :
    receive_message cfg db now (inboundPayload f b sid)
        = ({ db with
              contacts := db.contacts ++ [newContact db now (format_phone_number f)],
              messages := db.messages ++ [inboundMsg cfg db now f b sid],
              nextId := db.nextId + 2 },
            .msg (inboundMsg cfg db now f b sid)) ∧
    (newContact db now (format_phone_number f)).phone = format_phone_number f ∧
    (inboundMsg cfg db now f b sid).direction = "inbound" ∧
    (inboundMsg cfg db now f b sid).status = "delivered" ∧
    (inboundMsg cfg db now f b sid).content = b ∧
    (inboundMsg cfg db now f b sid).metadata.provider
      = some (if cfg.TWILIO_ENABLED then "twilio" else "direct") ∧
    (inboundMsg cfg db now f b sid).metadata.provider_message_id = some sid ∧
    (inboundMsg cfg db now f b sid).metadata.raw_webhook
      = some (inboundPayload f b sid) := by
  refine ⟨?_, rfl, rfl, rfl, rfl, rfl, rfl, rfl⟩
  have hphone : format_phone_number f ≠ "" := format_ne_empty f
  have hens := @ensure_create db (format_phone_number f) now hwf hphone hnc
  have hwf1 := WF_ensure db now (format_phone_number f) hwf
  rw [hens] at hwf1
  have ht1 : (PyVal.s f).truthy = true := decide_eq_true hf
  unfold receive_message
  dsimp only []
  rw [show (dictGet (inboundPayload f b sid) "From"
        (dictGet (inboundPayload f b sid) "from" (PyVal.s ""))) = PyVal.s f from rfl]
  rw [ht1]
  rw [if_neg (by simp : ¬ (¬ true = true))]
  rw [show (PyVal.s f).asStr = f from rfl]
  rw [if_neg hphone]
  rw [hens]
  dsimp only []
  rw [show (dictGet (inboundPayload f b sid) "MediaUrl0"
        (dictGet (inboundPayload f b sid) "media_url" PyVal.null)) = PyVal.null from rfl]
  rw [show (dictGet (inboundPayload f b sid) "Body"
        (dictGet (inboundPayload f b sid) "body" (PyVal.s ""))) = PyVal.s b from rfl]
  rw [show (dictGet (inboundPayload f b sid) "MessageSid"
        (dictGet (inboundPayload f b sid) "message_id" (PyVal.s ""))) = PyVal.s sid from rfl]
  simp only [show PyVal.null.truthy = false from rfl, Bool.false_eq_true, if_false,
    show (PyVal.s b).asStr = b from rfl, show (PyVal.s sid).asStr = sid from rfl]
  rw [@message_create_append
    { contacts := db.contacts ++ [newContact db now (format_phone_number f)],
      messages := db.messages, nextId := db.nextId + 1 }
    now
    { content := b,
      from_user := some (toString (newContact db now (format_phone_number f))._id),
      to_contact := none, message_type := "text", status := "delivered",
      direction := "inbound",
      metadata :=
        { media_url := none, provider_message_id := some sid, provider_status := none,
          error := none, status_history := none,
          provider := some (if cfg.TWILIO_ENABLED = true then "twilio" else "direct"),
          raw_webhook := some (inboundPayload f b sid), received_at := some now,
          whatsapp_message_id := none, timestamp := none, extra := [] } }
    hwf1 hb]
  rfl

/-- Witness for C6 (amended): a concrete inbound webhook against the
empty store. -/
theorem receive_message_inbound_shape_witness :
    receive_message {} {} 3 (inboundPayload "+15551234567" "hi" "SM5")
        = ({ ({} : DB) with
              contacts := DB.contacts {} ++
                [newContact {} 3 (format_phone_number "+15551234567")],
              messages := DB.messages {} ++ [inboundMsg {} {} 3 "+15551234567" "hi" "SM5"],
              nextId := DB.nextId {} + 2 },
            .msg (inboundMsg {} {} 3 "+15551234567" "hi" "SM5")) ∧
    (newContact {} 3 (format_phone_number "+15551234567")).phone
      = format_phone_number "+15551234567" ∧
    (inboundMsg {} {} 3 "+15551234567" "hi" "SM5").direction = "inbound" ∧
    (inboundMsg {} {} 3 "+15551234567" "hi" "SM5").status = "delivered" ∧
    (inboundMsg {} {} 3 "+15551234567" "hi" "SM5").content = "hi" ∧
    (inboundMsg {} {} 3 "+15551234567" "hi" "SM5").metadata.provider
      = some (if AppConfig.TWILIO_ENABLED {} then "twilio" else "direct") ∧
    (inboundMsg {} {} 3 "+15551234567" "hi" "SM5").metadata.provider_message_id
      = some "SM5" ∧
    (inboundMsg {} {} 3 "+15551234567" "hi" "SM5").metadata.raw_webhook
      = some (inboundPayload "+15551234567" "hi" "SM5") :=
  receive_message_inbound_shape {} {} 3 "+15551234567" "hi" "SM5"
    (by decide) (by decide) (by decide) (by decide)

/-! ## Send-path lemmas -/

/-- Saving a contact never touches the messages collection. -/
theorem saveContact_messages (db : DB) (c : Contact) (now : Nat) :
    (DB.saveContact db c now).messages = db.messages := by
  unfold DB.saveContact
  split
  · rfl
  · rfl

/-- Contact resolution of a nonempty phone always yields a contact and
never touches the messages collection. -/
theorem ensure_messages_some (db : DB) (now : Nat) (p : String) (hp : p ≠ "") :
    ∃ db1 c, ensure_contact_exists db now p = (db1, some c) ∧
      db1.messages = db.messages := by
  cases hn : Contact.find_by_phone db p with
  | some c =>
    refine ⟨db, c, ?_, rfl⟩
    unfold ensure_contact_exists
    rw [hn]
  | none =>
    unfold ensure_contact_exists
    rw [hn]
    dsimp only []
    unfold Contact.create
    dsimp only []
    rw [if_neg hp]
    dsimp only []
    refine ⟨_, _, rfl, ?_⟩
    exact saveContact_messages _ _ _

/-- `Message.create` with nonempty content returns the generated message
and the saved store. -/
theorem message_create_ok (db : DB) (now : Nat) (data : MessageData)
    (hc : data.content ≠ "") :
    Message.create db now data =
      .ok (DB.saveMessage { db with nextId := db.nextId + 1 } (newMessage db now data) now,
        newMessage db now data) := by
  unfold Message.create
  rw [if_neg hc]
  rfl

/-- The facade's handling of a failure result from the provider: the
message is saved with status `failed` and the error detail merged into
its metadata, and an error dictionary carrying the message id is
returned. -/
theorem processSendResult_failure (db : DB) (now : Nat) (message : Message)
    (result : ProviderResult) (hres : result.success = false) :
    processSendResult db now message result =
      (DB.saveMessage db
        { message with
          status := "failed",
          metadata := { message.metadata with
            error := some (result.error.getD "Unknown error") } } now,
       .err (result.error.getD "Unknown error") (some message._id)) := by
  unfold processSendResult
  rw [hres]
  simp

/-! ## C1 -/

/-- C1: when the provider dispatch raises an exception or returns a
failure, `send_message` returns normally (the `.ok` of the embedded
exception monad — no exception escapes the facade), and the Message
record created for the send exists afterwards with status `failed` and
the error detail stored in its metadata; in particular it is not left
`pending`. -/
theorem send_dispatch_failure_marks_failed
    (cfg : AppConfig) (o : TwilioOutcome) (db : DB) (now : Nat)
    (content to_contact : String) (from_user : Option String)
    (message_type : String) (media_url : PyVal) (metadata : Meta)
    (hc : content ≠ "")
    (ht : cfg.TWILIO_ENABLED = true) (hs : cfg.sidTruthy = true)
    (hfail : ∀ sid st, o ≠ .ok sid st) :
    ∃ db1 e mid,
      send_message cfg o db now content to_contact from_user message_type media_url metadata
        = .ok (db1, .err e (some mid)) ∧
      ∃ m, m ∈ db1.messages ∧ m._id = mid ∧ m.content = content ∧
        m.direction = "outbound" ∧ m.status = "failed" ∧
        m.metadata.error = some e ∧ m.status ≠ "pending" := by
  obtain ⟨dbc, c, hens, hmsgs⟩ :=
    ensure_messages_some db now (format_phone_number to_contact) (format_ne_empty to_contact)
  have hres : (send_via_twilio o).success = false := by
    cases o with
    | ok sid st => exact absurd rfl (hfail sid st)
    | restError code msg => rfl
    | exc msg => rfl
  unfold send_message
  rw [if_neg (fun hcon => hc hcon.1)]
  dsimp only []
  rw [if_neg (format_ne_empty to_contact)]
  rw [hens]
  dsimp only []
  rw [message_create_ok dbc now
    { content := content, from_user := from_user, to_contact := some (toString c._id),
      message_type := message_type, status := "pending", direction := "outbound",
      metadata :=
        if media_url.truthy = true then
          { metadata with media_url := some media_url }
        else metadata }
    hc]
  dsimp only []
  rw [if_pos ⟨ht, hs⟩]
  rw [processSendResult_failure _ _ _ _ hres]
  refine ⟨_, _, _, rfl, _, saveMessage_mem _ _ _, rfl, rfl, rfl, rfl, rfl, by simp⟩

/-- Witness for C1: a transport timeout on a concrete send against the
empty store. -/
theorem send_dispatch_failure_marks_failed_witness :
    ∃ db1 e mid,
      send_message { TWILIO_ENABLED := true, TWILIO_ACCOUNT_SID := some "AC1" }
          (.exc "timeout") {} 0 "hello" "+15551234567" none "text" .null {}
        = .ok (db1, .err e (some mid)) ∧
      ∃ m, m ∈ db1.messages ∧ m._id = mid ∧ m.content = "hello" ∧
        m.direction = "outbound" ∧ m.status = "failed" ∧
        m.metadata.error = some e ∧ m.status ≠ "pending" :=
  send_dispatch_failure_marks_failed
    { TWILIO_ENABLED := true, TWILIO_ACCOUNT_SID := some "AC1" }
    (.exc "timeout") {} 0 "hello" "+15551234567" none "text" .null {}
    (by decide) rfl (by decide)
    (fun sid st h => TwilioOutcome.noConfusion h)

/-! ## Chat-endpoint lemmas -/

/-- `setStatusList` leaves messages with a different id untouched. -/
theorem mem_setStatusList_of_ne {msgs : List Message} {x : Message}
    (mid : Nat) (s : String) (now : Nat)
    (hx : x ∈ msgs) (hne : x._id ≠ mid) : x ∈ setStatusList msgs mid s now := by
  unfold setStatusList
  refine List.mem_map.mpr ⟨x, hx, ?_⟩
  have hb : (x._id == mid) = false := beq_eq_false_iff_ne.mpr hne
  simp [hb]

/-- Membership in the insertion step of the newest-first sort. -/
theorem mem_insertByCreatedDesc {y m : Message} {l : List Message} :
    y ∈ insertByCreatedDesc m l ↔ y = m ∨ y ∈ l := by
  induction l with
  | nil => simp [insertByCreatedDesc]
  | cons x t ih =>
    unfold insertByCreatedDesc
    split
    · simp
    · simp only [List.mem_cons, ih]
      tauto

/-- The newest-first sort is a permutation membership-wise. -/
theorem mem_sortByCreatedDesc {y : Message} {l : List Message} :
    y ∈ sortByCreatedDesc l ↔ y ∈ l := by
  induction l with
  | nil => simp [sortByCreatedDesc]
  | cons x t ih =>
    unfold sortByCreatedDesc
    rw [mem_insertByCreatedDesc]
    simp [ih]

/-- A message of the returned chat page is a stored message. -/
theorem mem_messages_of_mem_page {db : DB} {cid : String} {limit skip : Nat}
    {m : Message}
    (hm : m ∈ Message.find_by_contact db cid limit skip) : m ∈ db.messages := by
  unfold Message.find_by_contact at hm
  have h1 := List.mem_of_mem_take hm
  have h2 := List.mem_of_mem_drop h1
  have h3 := mem_sortByCreatedDesc.mp h2
  exact (List.mem_filter.mp h3).1

/-- The mark-as-read fold leaves a message whose id matches no page
element untouched. -/
theorem mark_fold_preserves (now : Nat) (page : List Message)
    (msgs : List Message) (x : Message)
    (hx : x ∈ msgs) (hne : ∀ p ∈ page, p._id ≠ x._id) :
    x ∈ page.foldl
      (fun acc q =>
        if q.direction == "inbound" && q.status != "read" then
          setStatusList acc q._id "read" now
        else acc)
      msgs := by
  induction page generalizing msgs with
  | nil => simpa using hx
  | cons q rest ih =>
    simp only [List.foldl_cons]
    apply ih
    · by_cases hq : (q.direction == "inbound" && q.status != "read") = true
      · simp only [hq, if_true]
        exact mem_setStatusList_of_ne _ _ _ hx
          (fun he => hne q (List.mem_cons_self q rest) he.symm)
      · simp only [Bool.not_eq_true] at hq
        simp only [hq, Bool.false_eq_true, if_false]
        exact hx
    · intro p hp
      exact hne p (List.mem_cons_of_mem q hp)

/-- The mark-as-read fold sets exactly the page's unread inbound
messages to `read`, leaving their other fields as they were. -/
theorem mark_fold_updates (now : Nat) (page : List Message)
    (msgs : List Message) (m : Message)
    (hnd : (page.map (fun x => x._id)).Nodup) (hm : m ∈ page) (hmem : m ∈ msgs)
    (hdir : m.direction = "inbound") (hst : m.status ≠ "read") :
    { m with status := "read", updated_at := now } ∈
      page.foldl
        (fun acc q =>
          if q.direction == "inbound" && q.status != "read" then
            setStatusList acc q._id "read" now
          else acc)
        msgs := by
  induction page generalizing msgs with
  | nil => exact absurd hm (List.not_mem_nil m)
  | cons q rest ih =>
    rw [List.map_cons, List.nodup_cons] at hnd
    simp only [List.foldl_cons]
    rcases List.mem_cons.mp hm with hqm | hmrest
    · subst hqm
      have hcond : (m.direction == "inbound" && m.status != "read") = true := by
        have h1 : (m.status == "read") = false := beq_eq_false_iff_ne.mpr hst
        have h2 : (m.direction == "inbound") = true := beq_iff_eq.mpr hdir
        simp [bne, h1, h2]
      simp only [hcond, if_true]
      have hm' : { m with status := "read", updated_at := now }
          ∈ setStatusList msgs m._id "read" now := by
        unfold setStatusList
        refine List.mem_map.mpr ⟨m, hmem, ?_⟩
        simp
      apply mark_fold_preserves
      · exact hm'
      · intro p hp he
        exact hnd.1 (he ▸ List.mem_map_of_mem (fun x => x._id) hp)
    · refine ih _ hnd.2 hmrest ?_
      by_cases hq : (q.direction == "inbound" && q.status != "read") = true
      · simp only [hq, if_true]
        apply mem_setStatusList_of_ne _ _ _ hmem
        intro he
        exact hnd.1 (he ▸ List.mem_map_of_mem (fun x => x._id) hmrest)
      · simp only [Bool.not_eq_true] at hq
        simp only [hq, Bool.false_eq_true, if_false]
        exact hmem

/-! ## C10 -/

/-- C10: the chat-history endpoint is not a pure query — every inbound
message of the returned page whose status is not `read` is stored with
status `read` afterwards, while its content, direction, metadata and
creation timestamp are unchanged (only `status` and `updated_at` move) —
and the endpoint still answers 200. -/
theorem get_chat_marks_inbound_read
    (db : DB) (now : Nat) (cid : String) (n : Nat) (limit skip : Nat)
    (c : Contact) (m : Message)
    (hplus : startsWithPlus cid = false)
    (hn : pyParseId cid = some n)
    (hc : Contact.find_by_id db n = some c)
    (hnd : ((Message.find_by_contact db (toString c._id) limit skip).map
      (fun x => x._id)).Nodup)
    (hm : m ∈ Message.find_by_contact db (toString c._id) limit skip)
    (hdir : m.direction = "inbound") (hst : m.status ≠ "read") :
    { m with status := "read", updated_at := now }
      ∈ (get_chat db now cid limit skip).1.messages ∧
    (get_chat db now cid limit skip).2 = { status := 200, success := some true } := by
  have hroute : get_chat db now cid limit skip = get_chat_core db now c limit skip := by
    unfold get_chat
    rw [hplus]
    simp only [Bool.false_eq_true, if_false]
    rw [hn]
    dsimp only []
    rw [hc]
  rw [hroute]
  unfold get_chat_core mark_inbound_read
  dsimp only []
  constructor
  · exact mark_fold_updates now _ db.messages m hnd hm
      (mem_messages_of_mem_page hm) hdir hst
  · rfl

/-- Witness for C10: fetching the chat for the stored contact marks its
unread inbound message read. -/
theorem get_chat_marks_inbound_read_witness :
    { chatMsg with status := "read", updated_at := 9 }
      ∈ (get_chat dbChat 9 "0" 50 0).1.messages ∧
    (get_chat dbChat 9 "0" 50 0).2 = { status := 200, success := some true } :=
  get_chat_marks_inbound_read dbChat 9 "0" 0 50 0 chatContact chatMsg
    (by decide) (by decide) (by decide) (by decide) (by decide) (by decide) (by decide)

end FlowChat
